import Mathlib

/-!
Verification of the Debug Agent repository (heuristic analysis / repair pipeline).

This file gives a shallow embedding, in Lean 4, of the parts of the source that
the specification claims talk about:

* the shared data model (`src/src/core/models.py`),
* the static analyzers and the overall score
  (`src/src/agents/static_analysis_agent.py`),
* the test generator, test runner, repair strategies and the repair loop of the
  test-driven repair agent (`src/src/agents/test_driven_repair_agent.py`),
* the hybrid workflow of the coordinator (`src/src/agents/coordinator_agent.py`),
* the configuration round trip (`src/src/core/config.py`),
* the success-rate moving average of the memory manager
  (`src/src/memory/memory_manager.py`).

Modelling conventions: Python `str` is `String`; Python `int` is `Int` (or `Nat`
where the source value is a count); Python `float` is modelled as exact rational
arithmetic (`Rat`); Python `dict` values used by the code are association lists;
Python attribute access that can raise `AttributeError`, and list indexing that
can raise `IndexError`, return `Option`; a function whose Python original can
raise returns `Option` with `none` for the raised exception.  CPython's
`ast.parse` is an external component; it is abstracted as a function
`String → Option (List PyNode)` returning the `ast.walk` node sequence (`none`
models a `SyntaxError`).
-/

/-- Helper for `strContains`: does `pat` occur as a contiguous run inside the
character list? -/
def strContainsAux (pat : List Char) : List Char → Bool
  | [] => pat.isEmpty
  | c :: rest => pat.isPrefixOf (c :: rest) || strContainsAux pat rest

/-- Python `pat in s` substring containment on strings. -/
def strContains (s pat : String) : Bool :=
  strContainsAux pat.data s.data

/-- Helper for `pySplitLines`: split a character list at newline characters,
accumulating the current line in reverse. -/
def pySplitLinesAux (cur : List Char) : List Char → List String
  | [] => [String.mk cur.reverse]
  | c :: rest =>
      if c = '\n' then String.mk cur.reverse :: pySplitLinesAux [] rest
      else pySplitLinesAux (c :: cur) rest

/-- Python `s.split('\n')`, the line list used by all line-based analyzers
(`''.split('\n') == ['']`, so the result is never empty). -/
def pySplitLines (code : String) : List String :=
  pySplitLinesAux [] code.data

/-- Python `'\n'.join(lines)`. -/
def pyJoinLines : List String → String
  | [] => ""
  | [s] => s
  | s :: rest => s ++ "\n" ++ pyJoinLines rest

/-- ASCII lowercasing of one character, as Python `str.lower` acts on the
ASCII-only inputs of this code base. -/
def lowerChar (c : Char) : Char :=
  if 'A' ≤ c && c ≤ 'Z' then Char.ofNat (c.toNat + 32) else c

/-- Python `s.lower()`. -/
def pyLower (s : String) : String :=
  String.mk (s.data.map lowerChar)

/-- Python whitespace recognized by `str.strip` / `str.lstrip` / `\s`. -/
def isPySpace (c : Char) : Bool :=
  c = ' ' || c = '\t' || c = '\n' || c = '\r' || c = '\x0b' || c = '\x0c'

/-- Python `s.strip()`. -/
def pyStrip (s : String) : String :=
  String.mk (((s.data.dropWhile isPySpace).reverse.dropWhile isPySpace).reverse)

/-- Python `s.lstrip()`. -/
def pyLstrip (s : String) : String :=
  String.mk (s.data.dropWhile isPySpace)

/-- Python list indexing `l[i]`, including negative indices; `none` models an
`IndexError`. -/
def pyIdx {α : Type} (l : List α) (i : Int) : Option α :=
  if 0 ≤ i then l.get? i.toNat
  else if (-i).toNat ≤ l.length then l.get? (l.length - (-i).toNat) else none

/-- Python list item assignment `l[i] = v` for an index already known to be
valid (negative indices included). -/
def pySetIdx {α : Type} (l : List α) (i : Int) (v : α) : List α :=
  if 0 ≤ i then l.set i.toNat v else l.set (l.length - (-i).toNat) v

/-- Severity levels of `src/src/core/models.py` (`SeverityLevel`). -/
inductive SeverityLevel
  | low
  | medium
  | high
  | critical
deriving DecidableEq, Repr

/-- Issue types of `src/src/core/models.py` (`IssueType`). -/
inductive IssueType
  | security
  | quality
  | performance
  | logic
  | style
deriving DecidableEq, Repr

/-- Python `IssueType.value`, the tag used to key the repair-strategy map. -/
def IssueType.value : IssueType → String
  | .security => "security"
  | .quality => "quality"
  | .performance => "performance"
  | .logic => "logic"
  | .style => "style"

/-- Issue record: the `AnalysisResult` dataclass of `src/src/core/models.py`
together with the extension fields of its three subclasses (`SecurityIssue`,
`QualityIssue`, `PerformanceIssue`).  An `Option` extension field models a
Python attribute that is present only on the corresponding subclass (the
`hasattr` probe of `QualityRepairStrategy` sees `none` as an absent
attribute).  The open `metadata` map is modelled by its string-valued
entries, the only ones the repair strategies read. -/
structure Issue where
  file_path : Option String
  line_number : Int
  issue_type : IssueType
  severity : SeverityLevel
  description : String
  suggestion : String
  confidence : Rat
  metadata : List (String × String)
  vulnerability_type : Option String
  quality_metric : Option String
  threshold_value : Option Rat
  actual_value : Option Rat
  performance_metric : Option String
deriving DecidableEq, Repr

/-- Python `issue.metadata.get(key, '')` as the repair strategies use it. -/
def metaGet (m : List (String × String)) (k : String) : String :=
  match m.lookup k with
  | some v => v
  | none => ""

/-- Severity weights of `StaticAnalysisAgent._calculate_overall_score`
(`src/src/agents/static_analysis_agent.py` lines 223-228).  The Python values
are ints, so the model uses `Int`. -/
def severityWeight : SeverityLevel → Int
  | .low => 1
  | .medium => 2
  | .high => 3
  | .critical => 5

/-- Overall score of `StaticAnalysisAgent._calculate_overall_score`
(`src/src/agents/static_analysis_agent.py` lines 215-250): a penalty
accumulated over the three issue lists (security weight 5, quality weight 2,
performance weight 3), final score `max(0, 100 - total_penalty)`.  All
operands are Python ints, so the trailing `round(score, 2)` of the source is
the identity and the model returns the integer score. -/
def calcOverallScore (security_issues quality_issues performance_issues : List Issue) : Int :=
  let p₁ := security_issues.foldl (fun acc i => acc + severityWeight i.severity * 5) 0
  let p₂ := quality_issues.foldl (fun acc i => acc + severityWeight i.severity * 2) p₁
  let total_penalty := performance_issues.foldl (fun acc i => acc + severityWeight i.severity * 3) p₂
  max 0 (100 - total_penalty)

/-- Helper: a fold accumulating `+ f i` equals the starting value plus the sum
of the mapped list. -/
theorem foldl_add_eq_sum {α : Type} (f : α → Int) :
    ∀ (l : List α) (c : Int), l.foldl (fun acc i => acc + f i) c = c + (l.map f).sum := by
  intro l
  induction l with
  | nil => intro c; simp
  | cons a t ih =>
      intro c
      simp only [List.foldl_cons, List.map_cons, List.sum_cons]
      rw [ih]
      ring

/-- Fuel-bounded floor of the base-2 logarithm of a natural number (the fuel
is the number itself, far above the needed halving depth), written
structurally so that concrete values reduce in the kernel. -/
def natLog2Aux : Nat → Nat → Nat
  | 0, _ => 0
  | fuel + 1, n => if n ≤ 1 then 0 else 1 + natLog2Aux fuel (n / 2)

/-- Floor of log2 of a positive natural number. -/
def natLog2 (n : Nat) : Nat :=
  natLog2Aux n n

/-- Rounding of the positive rational `n / d` (with `n, d > 0`) to the
nearest IEEE-754 binary64 value, ties to even, for values in the normal
range (every value of the success-rate computation lies well inside it):
pick the exponent `e` with `(n / d) / 2 ^ e` in `[2 ^ 52, 2 ^ 53)`, round
that significand to the nearest integer (half to even), and scale back.
The result is the exact rational value of the resulting double. -/
def flPos (n d : Nat) : Rat :=
  let a := natLog2 n
  let b := natLog2 d
  let belowPow : Bool := if b ≤ a then n < d * 2 ^ (a - b) else n * 2 ^ (b - a) < d
  let k : Int := if belowPow then (a : Int) - b - 1 else (a : Int) - b
  let e : Int := k - 52
  let N := if 0 ≤ e then n else n * 2 ^ (-e).toNat
  let D := if 0 ≤ e then d * 2 ^ e.toNat else d
  let q := N / D
  let r := N % D
  let m := if 2 * r < D then q else if D < 2 * r then q + 1 else if q % 2 = 0 then q else q + 1
  if 0 ≤ e then mkRat (m * 2 ^ e.toNat : Nat) 1 else mkRat m (2 ^ (-e).toNat)

/-- Rounding of the rational `num / den` to the nearest binary64 value: the
exact value of the Python float a division-free decimal literal or an
arithmetic result denotes. -/
def flRat (num : Int) (den : Nat) : Rat :=
  if num = 0 ∨ den = 0 then 0
  else if 0 < num then flPos num.toNat den
  else -(flPos (-num).toNat den)

/-- The binary64 value a Python decimal literal `n / d` denotes (e.g.
`pyFloat 9 10` is the double written `0.9`). -/
def pyFloat (n : Int) (d : Nat) : Rat :=
  flRat n d

/-- One IEEE-754 binary64 multiplication: the exact product, rounded once. -/
def mulD (x y : Rat) : Rat :=
  flRat (x.num * y.num) (x.den * y.den)

/-- One IEEE-754 binary64 addition: the exact sum, rounded once. -/
def addD (x y : Rat) : Rat :=
  flRat (x.num * y.den + y.num * x.den) (x.den * y.den)

/-- Success-rate update of `MemoryManager.add_repair_result`
(`src/src/memory/memory_manager.py` lines 161-168): look the strategy up in
the `success_rates` dict (seed 0.5 when absent), apply the exponential moving
average `new = old * 0.9 + (1.0 if success else 0.0) * 0.1`, store it back.
The values are Python floats, so each constant is the binary64 value its
literal denotes and each multiplication and addition rounds once to
binary64 (`mulD` / `addD`).  The dict is modelled as an association list
with in-place replacement. -/
def updateSuccessRate (rates : List (String × Rat)) (strategy : String) (success : Bool) :
    List (String × Rat) :=
  let current : Rat :=
    match rates.lookup strategy with
    | some r => r
    | none => pyFloat 1 2
  let newRate : Rat :=
    addD (mulD current (pyFloat 9 10))
      (mulD (if success then pyFloat 1 1 else pyFloat 0 1) (pyFloat 1 10))
  if (rates.lookup strategy).isSome then
    rates.map (fun p => if p.1 = strategy then (p.1, newRate) else p)
  else
    rates ++ [(strategy, newRate)]

/-- Issue constructor defaults shared by the analyzer embeddings: the base
`AnalysisResult` dataclass fills every field not passed explicitly with its
default (`src/src/core/models.py` lines 50-61), and the subclass extension
fields default to `None` / `""` / `0.0`.  Absent subclass attributes are
`none`. -/
def baseIssue : Issue where
  file_path := none
  line_number := 0
  issue_type := .quality
  severity := .low
  description := ""
  suggestion := ""
  confidence := 0
  metadata := []
  vulnerability_type := none
  quality_metric := none
  threshold_value := none
  actual_value := none
  performance_metric := none

/-- Per-line checks of `SecurityAnalyzer.analyze`
(`src/src/agents/static_analysis_agent.py` lines 288-315): the hardcoded
password pattern (substring `password` in the lowercased line, an `=` or `:`
in the raw line, and one of `123`/`admin`/`test`/`password` in the lowercased
line) and the SQL-injection pattern (`execute(` or `cursor.execute` in the
lowercased line together with `+`, `%` or `format` in the raw line).  `i` is
the 1-based line index from `enumerate(lines, 1)`. -/
def securityLineIssues (fp : Option String) (i : Nat) (line : String) : List Issue :=
  let lower := pyLower line
  let pw :=
    if (strContains lower "password" && (strContains line "=" || strContains line ":")) &&
        (strContains lower "123" || strContains lower "admin" ||
          strContains lower "test" || strContains lower "password") then
      [{ baseIssue with
          file_path := fp
          line_number := (i : Int)
          issue_type := .security
          severity := .high
          description := "Potential hardcoded password detected"
          suggestion := "Use environment variables or secure storage"
          confidence := mkRat 8 10
          vulnerability_type := some "hardcoded_credentials" }]
    else []
  let sql :=
    if (strContains lower "execute(" || strContains lower "cursor.execute") &&
        (strContains line "+" || strContains line "%" || strContains line "format") then
      [{ baseIssue with
          file_path := fp
          line_number := (i : Int)
          issue_type := .security
          severity := .high
          description := "Potential SQL injection vulnerability"
          suggestion := "Use parameterized queries"
          confidence := mkRat 7 10
          vulnerability_type := some "sql_injection" }]
    else []
  pw ++ sql

/-- Per-line checks of `QualityAnalyzer.analyze`
(`src/src/agents/static_analysis_agent.py` lines 328-357): a TODO/FIXME/HACK
marker in the lowercased line, and a line longer than 100 characters. -/
def qualityLineIssues (fp : Option String) (i : Nat) (line : String) : List Issue :=
  let lower := pyLower line
  let todo :=
    if strContains lower "todo" || strContains lower "fixme" || strContains lower "hack" then
      [{ baseIssue with
          file_path := fp
          line_number := (i : Int)
          issue_type := .quality
          severity := .low
          description := "TODO/FIXME comment found: " ++ pyStrip line
          suggestion := "Address the TODO item or create proper issue"
          confidence := mkRat 9 10
          quality_metric := some "code_comments"
          threshold_value := some 0
          actual_value := some 1 }]
    else []
  let long :=
    if 100 < line.length then
      [{ baseIssue with
          file_path := fp
          line_number := (i : Int)
          issue_type := .quality
          severity := .low
          description := "Line too long (" ++ toString line.length ++ " characters)"
          suggestion := "Break long lines into multiple lines"
          confidence := mkRat 8 10
          quality_metric := some "line_length"
          threshold_value := some 100
          actual_value := some (line.length : Rat) }]
    else []
  todo ++ long

/-- Per-line check of `PerformanceAnalyzer.analyze`
(`src/src/agents/static_analysis_agent.py` lines 370-385): `for` and `+` in
the raw line together with `string` in the lowercased line or a quote
character in the raw line. -/
def performanceLineIssues (fp : Option String) (i : Nat) (line : String) : List Issue :=
  if (strContains line "for" && strContains line "+") &&
      (strContains (pyLower line) "string" || strContains line "\"" || strContains line "\x27") then
    [{ baseIssue with
        file_path := fp
        line_number := (i : Int)
        issue_type := .performance
        severity := .medium
        description := "Inefficient string concatenation in loop"
        suggestion := "Use list comprehension or join() method"
        confidence := mkRat 6 10
        performance_metric := some "string_concatenation" }]
  else []

/-- Line scan shared by the three analyzers: Python `enumerate(lines, i)`,
collecting each line's issues in order. -/
def scanLines (f : Nat → String → List Issue) : Nat → List String → List Issue
  | _, [] => []
  | i, l :: ls => f i l ++ scanLines f (i + 1) ls

/-- The issue list of `SecurityAnalyzer.analyze` over one code string. -/
def securityAnalyze (fp : Option String) (code : String) : List Issue :=
  scanLines (securityLineIssues fp) 1 (pySplitLines code)

/-- The issue list of `QualityAnalyzer.analyze` over one code string. -/
def qualityAnalyze (fp : Option String) (code : String) : List Issue :=
  scanLines (qualityLineIssues fp) 1 (pySplitLines code)

/-- The issue list of `PerformanceAnalyzer.analyze` over one code string. -/
def performanceAnalyze (fp : Option String) (code : String) : List Issue :=
  scanLines (performanceLineIssues fp) 1 (pySplitLines code)

/-- Result record of `StaticAnalysisAgent.analyze`
(`src/src/agents/static_analysis_agent.py` lines 67-114), restricted to the
entries downstream code reads: the three per-category issue lists and the
overall score.  All three analyzers are enabled in `ANALYSIS_RULES`
(`src/src/core/constants.py` lines 55-89), and the complexity analyzer
contributes metrics only, never issues. -/
structure StaticResults where
  security_issues : List Issue
  quality_issues : List Issue
  performance_issues : List Issue
  overall_score : Int
deriving DecidableEq, Repr

/-- The static-analysis pass of `StaticAnalysisAgent.analyze` on an in-memory
code string (a string that is not an existing filesystem path). -/
def staticAnalyze (fp : Option String) (code : String) : StaticResults :=
  let sec := securityAnalyze fp code
  let qual := qualityAnalyze fp code
  let perf := performanceAnalyze fp code
  { security_issues := sec
    quality_issues := qual
    performance_issues := perf
    overall_score := calcOverallScore sec qual perf }

/-- Bound lemma for the shared line scan: if the per-line check always stamps
the enumeration index as the line number, every produced issue's line number
lies in the scanned window. -/
theorem scanLines_line_number_bound (f : Nat → String → List Issue)
    (hf : ∀ j l x, x ∈ f j l → x.line_number = (j : Int)) :
    ∀ (ls : List String) (i : Nat) (x : Issue), x ∈ scanLines f i ls →
      (i : Int) ≤ x.line_number ∧ x.line_number < (i : Int) + ls.length := by
  intro ls
  induction ls with
  | nil => intro i x hx; simp [scanLines] at hx
  | cons l t ih =>
      intro i x hx
      simp only [scanLines, List.mem_append] at hx
      rcases hx with hx | hx
      · have := hf i l x hx
        simp only [this, List.length_cons]
        constructor
        · exact le_refl _
        · push_cast
          omega
      · have := ih (i + 1) x hx
        simp only [List.length_cons]
        push_cast at this ⊢
        omega

/-- The security per-line check stamps the enumeration index. -/
theorem securityLineIssues_stamps (fp : Option String) :
    ∀ j l x, x ∈ securityLineIssues fp j l → x.line_number = (j : Int) := by
  intro j l x hx
  simp only [securityLineIssues, List.mem_append] at hx
  rcases hx with hx | hx <;> split_ifs at hx <;> simp_all

/-- The quality per-line check stamps the enumeration index. -/
theorem qualityLineIssues_stamps (fp : Option String) :
    ∀ j l x, x ∈ qualityLineIssues fp j l → x.line_number = (j : Int) := by
  intro j l x hx
  simp only [qualityLineIssues, List.mem_append] at hx
  rcases hx with hx | hx <;> split_ifs at hx <;> simp_all

/-- The performance per-line check stamps the enumeration index. -/
theorem performanceLineIssues_stamps (fp : Option String) :
    ∀ j l x, x ∈ performanceLineIssues fp j l → x.line_number = (j : Int) := by
  intro j l x hx
  simp only [performanceLineIssues] at hx
  split_ifs at hx <;> simp_all

/-- In-bounds Python indexing: a nonnegative index below the length hits. -/
theorem pyIdx_isSome_of_bounds {α : Type} (l : List α) (i : Int)
    (h0 : 0 ≤ i) (h1 : i < (l.length : Int)) : (pyIdx l i).isSome := by
  have hlt : i.toNat < l.length := by omega
  simp only [pyIdx, if_pos h0, List.get?_eq_get hlt, Option.isSome_some]

/-- C10: every issue emitted by the security, quality, or performance analyzer
carries a 1-based line number between 1 and the number of lines of the
analyzed code, so the repair strategies' access `lines[issue.line_number - 1]`
is in bounds for analyzer-produced issues. -/
theorem analyzer_line_number_in_bounds (fp : Option String) (code : String) (x : Issue)
    (hx : x ∈ securityAnalyze fp code ∨ x ∈ qualityAnalyze fp code ∨
      x ∈ performanceAnalyze fp code) :
    1 ≤ x.line_number ∧ x.line_number ≤ ((pySplitLines code).length : Int) ∧
      (pyIdx (pySplitLines code) (x.line_number - 1)).isSome := by
  have hb : (1 : Int) ≤ x.line_number ∧
      x.line_number < (1 : Int) + (pySplitLines code).length := by
    rcases hx with hx | hx | hx
    · exact scanLines_line_number_bound _ (securityLineIssues_stamps fp) _ 1 x hx
    · exact scanLines_line_number_bound _ (qualityLineIssues_stamps fp) _ 1 x hx
    · exact scanLines_line_number_bound _ (performanceLineIssues_stamps fp) _ 1 x hx
  refine ⟨hb.1, by omega, ?_⟩
  exact pyIdx_isSome_of_bounds _ _ (by omega) (by omega)

/-- The single issue the security analyzer reports on the hardcoded-password
sample line, used to instantiate `analyzer_line_number_in_bounds`. -/
def samplePasswordIssue : Issue :=
  { baseIssue with
      line_number := 1
      issue_type := .security
      severity := .high
      description := "Potential hardcoded password detected"
      suggestion := "Use environment variables or secure storage"
      confidence := mkRat 8 10
      vulnerability_type := some "hardcoded_credentials" }

/-- Witness for C10 at the concrete input `password = "admin123"`. -/
theorem analyzer_line_number_in_bounds_witness :
    1 ≤ samplePasswordIssue.line_number ∧
      samplePasswordIssue.line_number ≤
        ((pySplitLines "password = \"admin123\"").length : Int) ∧
      (pyIdx (pySplitLines "password = \"admin123\"")
        (samplePasswordIssue.line_number - 1)).isSome :=
  analyzer_line_number_in_bounds none "password = \"admin123\"" samplePasswordIssue
    (Or.inl (by decide))

/-- A result set containing exactly one high-severity security issue, for the
worked score example of C3. -/
def oneHighSecurityIssue : Issue :=
  { baseIssue with issue_type := .security, severity := .high }

/-- C3: the overall score of the static analysis agent is
`max(0, 100 - Σ severity_weight × category_weight)` with severity weights
low 1 / medium 2 / high 3 / critical 5 and category weights security 5,
quality 2, performance 3 (the `round(·, 2)` of the source is the identity on
these integer scores); in particular a result set with exactly one
high-severity security issue scores 85. -/
theorem overall_score_formula :
    calcOverallScore [oneHighSecurityIssue] [] [] = 85 ∧
    ∀ security quality performance : List Issue,
      calcOverallScore security quality performance =
        max 0 (100 -
          ((security.map (fun i => severityWeight i.severity * 5)).sum +
            (quality.map (fun i => severityWeight i.severity * 2)).sum +
            (performance.map (fun i => severityWeight i.severity * 3)).sum)) := by
  constructor
  · decide
  · intro security quality performance
    simp only [calcOverallScore, foldl_add_eq_sum]
    ring_nf

/-- C4: analyzing the single line `password = "admin123"` yields exactly one
security issue — severity high, confidence 0.8, vulnerability type
`hardcoded_credentials` — and no quality or performance issues. -/
theorem password_line_yields_one_security_issue :
    (staticAnalyze none "password = \"admin123\"").security_issues.map
        (fun i => (i.severity, i.confidence, i.vulnerability_type)) =
      [(SeverityLevel.high, (0.8 : Rat), some "hardcoded_credentials")] ∧
    (staticAnalyze none "password = \"admin123\"").quality_issues = [] ∧
    (staticAnalyze none "password = \"admin123\"").performance_issues = [] := by
  refine ⟨?_, by decide, by decide⟩
  have h : (staticAnalyze none "password = \"admin123\"").security_issues.map
        (fun i => (i.severity, i.confidence, i.vulnerability_type)) =
      [(SeverityLevel.high, mkRat 8 10, some "hardcoded_credentials")] := by decide
  rw [h]
  norm_num [Rat.mkRat_eq_divInt]

set_option maxRecDepth 16384 in
/-- C9 counterexample: in the source's IEEE-754 double arithmetic, after one
success and one subsequent failure the stored rate is
`8917127262193583 × 2⁻⁵⁴ = 0.49500000000000005`, one unit in the last place
above 0.495: it equals neither the real number `0.495 = 99/200` nor the
binary64 value the literal `0.495` denotes
(`4458563631096791 × 2⁻⁵³`), so the claimed "exactly 0.495" is false of the
program. -/
theorem ema_second_update_not_exactly_0495 :
    (updateSuccessRate (updateSuccessRate [] "security_replacement" true)
        "security_replacement" false).lookup "security_replacement" =
      some (mkRat 8917127262193583 18014398509481984) ∧
    ¬(mkRat 8917127262193583 18014398509481984 = mkRat 99 200) ∧
    ¬(mkRat 8917127262193583 18014398509481984 = pyFloat 99 200) := by
  refine ⟨by decide, by decide, by decide⟩

set_option maxRecDepth 16384 in
/-- C9 (amended): the per-strategy success rate is an exponential moving
average seeded at 0.5 and updated as
`new = 0.9 × old + 0.1 × (1 if success else 0)` in binary64 float
arithmetic: from the seed, one success yields exactly the double written
0.55 (`0.5 * 0.9 + 1.0 * 0.1 == 0.55` holds in doubles), while the
subsequent failure yields `0.49500000000000005`
(`8917127262193583 × 2⁻⁵⁴`, one unit in the last place above 0.495) — close
to, but not exactly, 0.495. -/
theorem success_rate_ema_float_values :
    (updateSuccessRate [] "security_replacement" true).lookup "security_replacement" =
      some (pyFloat 11 20) ∧
    pyFloat 11 20 = mkRat 2476979795053773 4503599627370496 ∧
    (updateSuccessRate (updateSuccessRate [] "security_replacement" true)
        "security_replacement" false).lookup "security_replacement" =
      some (mkRat 8917127262193583 18014398509481984) ∧
    ¬(mkRat 8917127262193583 18014398509481984 = pyFloat 99 200) := by
  refine ⟨by decide, by decide, by decide, by decide⟩

/-- Python regex `\w` on the ASCII inputs of this code base: letters, digits,
underscore. -/
def isWordChar (c : Char) : Bool :=
  c.isAlphanum || c = '_'

/-- Length of the maximal `\w*` run at the head of `s`. -/
def wordRun (s : List Char) : Nat :=
  (s.takeWhile isWordChar).length

/-- Length of the maximal `\s*` run at the head of `s`. -/
def spaceRun (s : List Char) : Nat :=
  (s.takeWhile isPySpace).length

/-- Match, at the head of `s`, the tail `\s*[=:]\s*["\']([^"\']*)["\']` of the
hardcoded-password pattern of `SecurityRepairStrategy.repair`
(`src/src/agents/test_driven_repair_agent.py` lines 464-468).  Returns the
length of `\s*[=:]\s*` (the remainder of capture group 1) and the total
consumed length.  The starred pieces are deterministic here: a greedy space
run cannot be shortened, because the following required character is never a
space. -/
def matchPwTail (s : List Char) : Option (Nat × Nat) :=
  let sp₁ := spaceRun s
  match s.drop sp₁ with
  | c :: rest =>
    if c = '=' || c = ':' then
      let sp₂ := spaceRun rest
      match rest.drop sp₂ with
      | q :: rest₂ =>
        if q = '"' || q = '\x27' then
          let g₂ := (rest₂.takeWhile (fun d => !(d = '"' || d = '\x27'))).length
          match rest₂.drop g₂ with
          | q₂ :: _ =>
            if q₂ = '"' || q₂ = '\x27' then
              some (sp₁ + 1 + sp₂, sp₁ + 1 + sp₂ + 1 + g₂ + 1)
            else none
          | [] => none
        else none
      | [] => none
    else none
  | [] => none

/-- Match, at the head of `s`, the full pattern
`(\w*password\s*[=:]\s*)["\']([^"\']*)["\']`: the greedy backtracking of
`\w*` tries the largest prefix first, so candidate offsets for the literal
`password` are scanned in descending order.  Returns the length of capture
group 1 and the total match length. -/
def matchPwAt (s : List Char) : Option (Nat × Nat) :=
  let run := wordRun s
  ((List.range (run + 1)).reverse).findSome? fun k =>
    if "password".data.isPrefixOf (s.drop k) then
      (matchPwTail (s.drop (k + 8))).map fun p =>
        (k + 8 + p.1, k + 8 + p.2)
    else none

/-- Python `re.sub` for the hardcoded-password pattern with replacement
`\1os.getenv("PASSWORD")`: scan left to right, replace each non-overlapping
leftmost match, continue after it.  The fuel equals the input length; a
(unreachable) zero-length match advances by one character. -/
def pySubPasswordAux : Nat → List Char → List Char
  | 0, s => s
  | _ + 1, [] => []
  | fuel + 1, c :: rest =>
    match matchPwAt (c :: rest) with
    | some (g₁, len) =>
        (c :: rest).take g₁ ++ "os.getenv(\"PASSWORD\")".data ++
          pySubPasswordAux fuel ((c :: rest).drop (max len 1))
    | none => c :: pySubPasswordAux fuel rest

/-- The line rewrite of `SecurityRepairStrategy.repair`. -/
def pySubPassword (line : String) : String :=
  String.mk (pySubPasswordAux line.data.length line.data)

/-- Match, at the head of `s`, the string-concatenation pattern
`(\w+\s*\+=\s*)["\']\s*\+\s*(\w+)\s*\+\s*["\']` of
`PerformanceRepairStrategy.repair`
(`src/src/agents/test_driven_repair_agent.py` lines 552-556).  Every starred
piece is deterministic (`+`, quotes and word characters are never spaces, and
`+` is not a word character), so no backtracking arises.  Returns the length
of capture group 1, the start offset and length of capture group 2, and the
total match length. -/
def matchConcatAt (s : List Char) : Option (Nat × Nat × Nat × Nat) :=
  let w₁ := wordRun s
  if w₁ = 0 then none
  else
    let s₁ := s.drop w₁
    let sp₁ := spaceRun s₁
    match s₁.drop sp₁ with
    | '+' :: '=' :: s₂ =>
      let sp₂ := spaceRun s₂
      let g₁ := w₁ + sp₁ + 2 + sp₂
      match s₂.drop sp₂ with
      | q :: s₃ =>
        if q = '"' || q = '\x27' then
          let sp₃ := spaceRun s₃
          match s₃.drop sp₃ with
          | '+' :: s₄ =>
            let sp₄ := spaceRun s₄
            let s₅ := s₄.drop sp₄
            let w₂ := wordRun s₅
            if w₂ = 0 then none
            else
              let sp₅ := spaceRun (s₅.drop w₂)
              match (s₅.drop w₂).drop sp₅ with
              | '+' :: s₆ =>
                let sp₆ := spaceRun s₆
                match s₆.drop sp₆ with
                | q₂ :: _ =>
                  if q₂ = '"' || q₂ = '\x27' then
                    some (g₁, g₁ + 1 + sp₃ + 1 + sp₄, w₂,
                      g₁ + 1 + sp₃ + 1 + sp₄ + w₂ + sp₅ + 1 + sp₆ + 1)
                  else none
                | [] => none
              | _ => none
          | _ => none
        else none
      | [] => none
    | _ => none

/-- Python `re.sub` for the string-concatenation pattern with replacement
`\1"".join([str(\2)])`. -/
def pySubConcatAux : Nat → List Char → List Char
  | 0, s => s
  | _ + 1, [] => []
  | fuel + 1, c :: rest =>
    match matchConcatAt (c :: rest) with
    | some (g₁, g₂s, g₂l, len) =>
        (c :: rest).take g₁ ++ "\"\".join([str(".data ++
          ((c :: rest).drop g₂s).take g₂l ++ ")])".data ++
          pySubConcatAux fuel ((c :: rest).drop (max len 1))
    | none => c :: pySubConcatAux fuel rest

/-- The line rewrite of `PerformanceRepairStrategy.repair`. -/
def pySubConcat (line : String) : String :=
  String.mk (pySubConcatAux line.data.length line.data)

/-- The `RepairResult` dataclass of `src/src/core/models.py` lines 108-119.
The open `performance_impact` float map is an association list. -/
structure RepairResult where
  original_code : String
  repaired_code : String
  applied_fixes : List String
  success : Bool
  validation_passed : Bool
  performance_impact : List (String × Rat)
  side_effects : List String
  confidence : Rat
  repair_strategy : String
deriving DecidableEq, Repr

/-- Failure result shared by the strategies' miss paths, parameterized by the
side-effect note and strategy name each strategy fills in. -/
def missResult (code : String) (note strategyName : String) : RepairResult :=
  { original_code := code
    repaired_code := code
    applied_fixes := []
    success := false
    validation_passed := false
    performance_impact := []
    side_effects := [note]
    confidence := 0
    repair_strategy := strategyName }

/-- Python slice assignment `l[a:b] = [x, y]` with slice-index normalization
(negative indices count from the end, then both bounds clamp to `[0, len]`,
and an empty slice inserts without removing). -/
def pySliceIdx (len : Nat) (i : Int) : Nat :=
  if i < 0 then (max 0 (i + len)).toNat else min i.toNat len

/-- Replace the slice `l[a:b]` by the two given elements. -/
def pySliceAssign2 (l : List String) (a b : Int) (x y : String) : List String :=
  let a₂ := pySliceIdx l.length a
  let b₂ := max a₂ (pySliceIdx l.length b)
  l.take a₂ ++ [x, y] ++ l.drop b₂

/-- Embedding of `SecurityRepairStrategy.repair` (`src/src/agents/test_driven_repair_agent.py`
lines 456-493).  `none` models the `IndexError` of `lines[line_number - 1]`,
which the caller `_repair_issue` converts to a failure result. -/
def securityRepair (code : String) (issue : Issue) : Option RepairResult :=
  let lines := pySplitLines code
  match pyIdx lines (issue.line_number - 1) with
  | none => none
  | some original_line =>
    if strContains (metaGet issue.metadata "vulnerability_type") "hardcoded_credentials" then
      let fixed_line := pySubPassword original_line
      let lines₂ := pySetIdx lines (issue.line_number - 1) fixed_line
      some { original_code := code
             repaired_code := pyJoinLines lines₂
             applied_fixes := ["Replaced hardcoded password with environment variable"]
             success := true
             validation_passed := true
             performance_impact := [("speed_impact", 0)]
             side_effects := ["Requires PASSWORD environment variable"]
             confidence := mkRat 8 10
             repair_strategy := "security_replacement" }
    else some (missResult code "No specific security repair available" "security_none")

/-- Python `" " * n`. -/
def spaces (n : Nat) : String :=
  String.mk (List.replicate n ' ')

/-- Embedding of `QualityRepairStrategy.repair` (`src/src/agents/test_driven_repair_agent.py`
lines 499-537): splits an over-long line at column 80 when the issue carries
`quality_metric == "line_length"`; every other shape is left unrepaired. -/
def qualityRepair (code : String) (issue : Issue) : Option RepairResult :=
  let lines := pySplitLines code
  match pyIdx lines (issue.line_number - 1) with
  | none => none
  | some original_line =>
    if issue.quality_metric = some "line_length" ∧ 100 < original_line.length then
      let indent := original_line.length - (pyLstrip original_line).length
      let first := String.mk (original_line.data.take 80) ++ " \\"
      let second := spaces indent ++ pyStrip (String.mk (original_line.data.drop 80))
      let lines₂ := pySliceAssign2 lines (issue.line_number - 1) issue.line_number first second
      some { original_code := code
             repaired_code := pyJoinLines lines₂
             applied_fixes := ["Split long line at position " ++ toString issue.line_number]
             success := true
             validation_passed := true
             performance_impact := [("readability_impact", mkRat 2 10)]
             side_effects := ["Code formatting changed"]
             confidence := mkRat 9 10
             repair_strategy := "quality_formatting" }
    else some (missResult code "No specific quality repair available" "quality_none")

/-- Embedding of `PerformanceRepairStrategy.repair`
(`src/src/agents/test_driven_repair_agent.py` lines 543-581). -/
def performanceRepair (code : String) (issue : Issue) : Option RepairResult :=
  let lines := pySplitLines code
  match pyIdx lines (issue.line_number - 1) with
  | none => none
  | some original_line =>
    if strContains (metaGet issue.metadata "performance_metric") "string_concatenation" ∧
        strContains original_line "+" ∧ strContains original_line "for" then
      let fixed_line := pySubConcat original_line
      let lines₂ := pySetIdx lines (issue.line_number - 1) fixed_line
      some { original_code := code
             repaired_code := pyJoinLines lines₂
             applied_fixes :=
               ["Optimized string concatenation at line " ++ toString issue.line_number]
             success := true
             validation_passed := true
             performance_impact := [("speed_improvement", mkRat 3 10)]
             side_effects := ["String concatenation logic changed"]
             confidence := mkRat 7 10
             repair_strategy := "performance_optimization" }
    else some (missResult code "No specific performance repair available" "performance_none")

/-- Embedding of `LogicRepairStrategy.repair` (`src/src/agents/test_driven_repair_agent.py`
lines 587-601): an unconditional no-op stub. -/
def logicRepair (code : String) (_issue : Issue) : RepairResult :=
  { original_code := code
    repaired_code := code
    applied_fixes := []
    success := false
    validation_passed := false
    performance_impact := []
    side_effects := ["Logic repair requires manual intervention"]
    confidence := mkRat 1 10
    repair_strategy := "logic_manual" }

/-- Embedding of `TestDrivenRepairAgent._repair_issue`
(`src/src/agents/test_driven_repair_agent.py` lines 157-189): dispatch by the
issue-type tag; a missing strategy (`style`) yields the "No repair strategy
available" failure; an exception inside a strategy (the only one the model
can raise is the `IndexError` of the line access, whose CPython message is
`list index out of range`) is caught and converted to a failure result. -/
def repairIssue (code : String) (issue : Issue) : RepairResult :=
  let onExc (strategyType : String) : Option RepairResult → RepairResult
    | some r => r
    | none =>
      { original_code := code
        repaired_code := code
        applied_fixes := []
        success := false
        validation_passed := false
        performance_impact := []
        side_effects := ["Repair failed: list index out of range"]
        confidence := 0
        repair_strategy := strategyType }
  match issue.issue_type with
  | .security => onExc "security" (securityRepair code issue)
  | .quality => onExc "quality" (qualityRepair code issue)
  | .performance => onExc "performance" (performanceRepair code issue)
  | .logic => logicRepair code issue
  | .style =>
      { original_code := code
        repaired_code := code
        applied_fixes := []
        success := false
        validation_passed := false
        performance_impact := []
        side_effects := ["No repair strategy available"]
        confidence := 0
        repair_strategy := "none" }

/-- The repair loop of `TestDrivenRepairAgent.analyze_and_repair`
(`src/src/agents/test_driven_repair_agent.py` lines 73-80): attempt each
issue against the current code; only a successful repair is appended to
`repair_results` and advances `current_code`. -/
def repairLoopAux (current : String) (acc : List RepairResult) :
    List Issue → String × List RepairResult
  | [] => (current, acc)
  | issue :: rest =>
    let r := repairIssue current issue
    if r.success then repairLoopAux r.repaired_code (acc ++ [r]) rest
    else repairLoopAux current acc rest

/-- The repair loop started on the input code with an empty accumulator. -/
def repairLoop (code : String) (issues : List Issue) : String × List RepairResult :=
  repairLoopAux code [] issues

/-- Embedding of `TestDrivenRepairAgent._calculate_repair_confidence`
(`src/src/agents/test_driven_repair_agent.py` lines 204-212): 0 on an empty
list, else the mean of the confidences. -/
def calcRepairConfidence (rs : List RepairResult) : Rat :=
  if rs.isEmpty then 0
  else (rs.map (fun r => r.confidence)).sum / (rs.length : Rat)

/-- The sequence of repair attempts the loop makes: each issue is attempted
against the code current at its turn (a successful attempt's output feeds the
next attempt). -/
def attemptTrace (code : String) : List Issue → List RepairResult
  | [] => []
  | issue :: rest =>
    let r := repairIssue code issue
    r :: attemptTrace (if r.success then r.repaired_code else code) rest

/-- The output of the last successful repair, or the original code when there
is none. -/
def lastRepairedCodeOr (code : String) (rs : List RepairResult) : String :=
  match rs.getLast? with
  | some r => r.repaired_code
  | none => code

/-- C5: each of the four repair strategies, given an issue it does not
recognize (the engaging metadata entry or field value is absent) whose line
number addresses an existing line, returns a well-formed failure with
`success = false` and `repaired_code` equal to the input code — never a
partially mutated string. -/
theorem repair_strategies_miss_is_noop (code : String) (issue : Issue)
    (h1 : 1 ≤ issue.line_number)
    (h2 : issue.line_number ≤ ((pySplitLines code).length : Int)) :
    (strContains (metaGet issue.metadata "vulnerability_type") "hardcoded_credentials" = false →
      securityRepair code issue =
        some (missResult code "No specific security repair available" "security_none")) ∧
    (issue.quality_metric ≠ some "line_length" →
      qualityRepair code issue =
        some (missResult code "No specific quality repair available" "quality_none")) ∧
    (strContains (metaGet issue.metadata "performance_metric") "string_concatenation" = false →
      performanceRepair code issue =
        some (missResult code "No specific performance repair available" "performance_none")) ∧
    (logicRepair code issue).success = false ∧
    (logicRepair code issue).repaired_code = code := by
  obtain ⟨line, hline⟩ : ∃ line, pyIdx (pySplitLines code) (issue.line_number - 1) = some line :=
    Option.isSome_iff_exists.mp
      (pyIdx_isSome_of_bounds _ _ (by omega) (by omega))
  refine ⟨?_, ?_, ?_, rfl, rfl⟩
  · intro hmiss
    simp [securityRepair, hline, hmiss]
  · intro hmiss
    simp [qualityRepair, hline, hmiss]
  · intro hmiss
    simp [performanceRepair, hline, hmiss]

/-- Unrecognized issue used to instantiate `repair_strategies_miss_is_noop`:
a logic-typed issue with no metadata and no subclass fields, addressing
line 1. -/
def c5Issue : Issue :=
  { baseIssue with line_number := 1, issue_type := .logic }

/-- Witness for C5 at the concrete input `x = 1`: all four strategies leave
the code untouched and report failure. -/
theorem repair_strategies_miss_is_noop_witness :
    securityRepair "x = 1" c5Issue =
      some (missResult "x = 1" "No specific security repair available" "security_none") ∧
    qualityRepair "x = 1" c5Issue =
      some (missResult "x = 1" "No specific quality repair available" "quality_none") ∧
    performanceRepair "x = 1" c5Issue =
      some (missResult "x = 1" "No specific performance repair available" "performance_none") ∧
    (logicRepair "x = 1" c5Issue).success = false ∧
    (logicRepair "x = 1" c5Issue).repaired_code = "x = 1" := by
  have h := repair_strategies_miss_is_noop "x = 1" c5Issue (by decide) (by decide)
  exact ⟨h.1 (by decide), h.2.1 (by decide), h.2.2.1 (by decide), h.2.2.2⟩

/-- The last successful output threads through a cons. -/
theorem lastRepairedCodeOr_cons (c : String) (r : RepairResult) (rs : List RepairResult) :
    lastRepairedCodeOr c (r :: rs) = lastRepairedCodeOr r.repaired_code rs := by
  cases rs with
  | nil => rfl
  | cons b t =>
      simp only [lastRepairedCodeOr, List.getLast?_cons_cons]
      cases hgl : (b :: t).getLast? with
      | none => simp at hgl
      | some x => rfl

/-- Invariant of the repair loop: starting from any current code and
accumulator, the loop returns the accumulator extended by exactly the
successful attempts of the attempt trace, and the final code is the last
successful attempt's output (or the starting code). -/
theorem repairLoopAux_spec :
    ∀ (issues : List Issue) (current : String) (acc : List RepairResult),
      repairLoopAux current acc issues =
        (lastRepairedCodeOr current
            ((attemptTrace current issues).filter (fun r => r.success)),
          acc ++ (attemptTrace current issues).filter (fun r => r.success)) := by
  intro issues
  induction issues with
  | nil =>
      intro current acc
      simp [repairLoopAux, attemptTrace, lastRepairedCodeOr]
  | cons issue rest ih =>
      intro current acc
      simp only [repairLoopAux, attemptTrace]
      by_cases h : (repairIssue current issue).success
      · simp only [h, if_true, List.filter_cons_of_pos, ih, List.append_assoc,
          List.singleton_append, lastRepairedCodeOr_cons]
      · simp only [h, if_false, List.filter_cons_of_neg, ih, Bool.false_eq_true]
        simp [h]

/-- C2 (amended): the repair loop accumulates exactly the successful attempts
of the attempt sequence (failed attempts are not reported), `current_code`
advances exactly to each successful repair's output (so the final code is the
last accumulated repair's output, or the input code when none succeeded), and
the reported confidence is the mean confidence over the accumulated
(successful) repairs — 0 when none succeeded. -/
theorem repair_loop_accumulates_only_successes (code : String) (issues : List Issue) :
    (repairLoop code issues).2 = (attemptTrace code issues).filter (fun r => r.success) ∧
    (repairLoop code issues).1 = lastRepairedCodeOr code ((repairLoop code issues).2) ∧
    calcRepairConfidence ((repairLoop code issues).2) =
      (if ((repairLoop code issues).2).isEmpty then 0
        else (((repairLoop code issues).2.map (fun r => r.confidence)).sum) /
          (((repairLoop code issues).2.length : Nat) : Rat)) := by
  have h := repairLoopAux_spec issues code []
  refine ⟨?_, ?_, rfl⟩
  · simp [repairLoop, h]
  · simp [repairLoop, h]

/-- Logic-typed issue whose repair attempt fails, used to refute the claim
that every attempted repair is accumulated. -/
def c2Issue : Issue :=
  { baseIssue with issue_type := .logic }

/-- C2 counterexample: on `x = 1` with one logic issue, exactly one repair is
attempted (the logic stub, which fails with confidence 0.1), yet
`applied_repairs` is empty and the reported confidence is 0 — not the mean
0.1 over all attempted repairs, and the attempted result is not accumulated. -/
theorem every_attempt_accumulated_refuted :
    (attemptTrace "x = 1" [c2Issue]).length = 1 ∧
    (repairIssue "x = 1" c2Issue).success = false ∧
    (repairIssue "x = 1" c2Issue).confidence = mkRat 1 10 ∧
    (repairLoop "x = 1" [c2Issue]).2 = [] ∧
    calcRepairConfidence ((repairLoop "x = 1" [c2Issue]).2) = 0 ∧
    ¬(mkRat 1 10 = 0) := by
  refine ⟨by decide, by decide, by decide, by decide, by decide, by decide⟩

/-- Test types of `src/src/core/models.py` (`TestType`). -/
inductive TestType
  | unit
  | integration
  | functional
deriving DecidableEq, Repr

/-- The `TestCase` dataclass of `src/src/core/models.py` lines 84-96.  The
open `input_data` map is modelled by the entries the generator writes
(`function_name`/`arguments`/`test_inputs` for function tests, `class_name`
for class tests, `code_sample` for the generic test); `setup_code` and
`teardown_code` are never set by the generator and are omitted. -/
structure TestCase where
  id : String
  name : String
  description : String
  input_function_name : Option String
  input_arguments : List String
  input_test_inputs : List (List (String × String))
  input_class_name : Option String
  input_code_sample : Option String
  expected_output : String
  test_type : TestType
  generated_by : String
  code_template : Option String
deriving DecidableEq, Repr

/-- Node of the `ast.walk` sequence, as far as `TestGenerator.generate_tests`
inspects it: function definitions (name and positional argument names), class
definitions (name), and any other node kind. -/
inductive PyNode
  | funcDef (name : String) (args : List String)
  | classDef (name : String)
  | other
deriving DecidableEq, Repr

/-- The `TEST_CONFIG` table of `src/src/core/constants.py` lines 126-131,
restricted to its integer entries (the only ones the code reads). -/
def TEST_CONFIG : List (String × Nat) :=
  [("max_test_cases", 50), ("test_timeout", 10)]

/-- Python `TEST_CONFIG.get(key, default)`. -/
def testConfigGet (k : String) (dflt : Nat) : Nat :=
  match TEST_CONFIG.lookup k with
  | some v => v
  | none => dflt

/-- Embedding of `TestGenerator._generate_test_inputs`
(`src/src/agents/test_driven_repair_agent.py` lines 323-336). -/
def genTestInputs (args : List String) : List (String × String) :=
  match args with
  | [] => []
  | [a] => [(a, "test_value")]
  | _ => args.enum.map (fun p => (p.2, "test_" ++ toString p.1))

/-- Embedding of `TestGenerator._generate_test_template`
(`src/src/agents/test_driven_repair_agent.py` lines 338-347). -/
def genTestTemplate (funcName : String) (args : List String) : String :=
  let argsStr := String.intercalate ", " args
  "\ndef test_" ++ funcName ++ "():\n    # Test function " ++ funcName ++
    "\n    result = " ++ funcName ++ "(" ++ argsStr ++
    ")\n    # Add assertions here\n    assert result is not None\n"

/-- Embedding of `TestGenerator._generate_function_test` with the already-incremented
counter (`src/src/agents/test_driven_repair_agent.py` lines 281-303). -/
def genFunctionTest (counter : Nat) (funcName : String) (args : List String) : TestCase :=
  { id := "test_" ++ funcName ++ "_" ++ toString counter
    name := "Test " ++ funcName
    description := "Test function " ++ funcName ++ " with " ++
      toString args.length ++ " arguments"
    input_function_name := some funcName
    input_arguments := args
    input_test_inputs := [genTestInputs args]
    input_class_name := none
    input_code_sample := none
    expected_output := "success"
    test_type := .unit
    generated_by := "ai"
    code_template := some (genTestTemplate funcName args) }

/-- Embedding of `TestGenerator._generate_class_tests`
(`src/src/agents/test_driven_repair_agent.py` lines 305-321): one
initialization test per class, leaving the counter untouched. -/
def genClassTest (className : String) : TestCase :=
  { id := "test_" ++ className ++ "_init"
    name := "Test " ++ className ++ " initialization"
    description := "Test " ++ className ++ " class initialization"
    input_function_name := none
    input_arguments := []
    input_test_inputs := []
    input_class_name := some className
    input_code_sample := none
    expected_output := "instance_created"
    test_type := .unit
    generated_by := "ai"
    code_template := none }

/-- Python `code[:100] + "..." if len(code) > 100 else code`. -/
def pyTruncate100 (code : String) : String :=
  if 100 < code.length then String.mk (code.data.take 100) ++ "..." else code

/-- Embedding of `TestGenerator._generate_generic_test`
(`src/src/agents/test_driven_repair_agent.py` lines 349-361). -/
def genGenericTest (counter : Nat) (code : String) : TestCase :=
  { id := "generic_test_" ++ toString counter
    name := "Generic code test"
    description := "Generic test for code validation"
    input_function_name := none
    input_arguments := []
    input_test_inputs := []
    input_class_name := none
    input_code_sample := some (pyTruncate100 code)
    expected_output := "code_executable"
    test_type := .unit
    generated_by := "template"
    code_template := none }

/-- Walk of `TestGenerator.generate_tests` over the node sequence, threading
the instance counter (incremented before use by function tests only). -/
def genWalk (counter : Nat) : List PyNode → List TestCase
  | [] => []
  | .funcDef name args :: rest => genFunctionTest (counter + 1) name args :: genWalk (counter + 1) rest
  | .classDef name :: rest => genClassTest name :: genWalk counter rest
  | .other :: rest => genWalk counter rest

/-- Embedding of `TestGenerator.generate_tests`
(`src/src/agents/test_driven_repair_agent.py` lines 253-279) for a fresh
generator (counter 0): per-node test cases — one generic test when parsing
fails — truncated to `TEST_CONFIG.get('max_test_cases', 50)`. -/
def generateTests (parsed : Option (List PyNode)) (code : String) : List TestCase :=
  let test_cases :=
    match parsed with
    | some nodes => genWalk 0 nodes
    | none => [genGenericTest 1 code]
  test_cases.take (testConfigGet "max_test_cases" 50)

/-- Per-test detail record produced by `TestRunner._run_single_test`
(`src/src/agents/test_driven_repair_agent.py` lines 411-439); the wall-clock
`execution_time` entry is external and omitted. -/
structure TestDetail where
  test_id : String
  status : String
  message : String
deriving DecidableEq, Repr

/-- Embedding of `TestRunner._run_single_test` for one test case: a unit test passes
exactly when the subject code parses (`_execute_unit_test`); its failure
branch's `error` entry is dropped when `_run_single_test` repackages the
result, leaving an empty `message`; non-unit tests pass unconditionally. -/
def runSingleTest (parseOk : Bool) (tc : TestCase) : TestDetail :=
  if tc.test_type = TestType.unit then
    if parseOk then { test_id := tc.id, status := "passed", message := "Code compiles successfully" }
    else { test_id := tc.id, status := "failed", message := "" }
  else { test_id := tc.id, status := "passed", message := "Test executed" }

/-- The `TestResults` dataclass of `src/src/core/models.py` lines 98-106.
Note its fields: there is no `passed_results` attribute. -/
structure TestResults where
  total_tests : Nat
  passed_tests : Nat
  failed_tests : Nat
  error_tests : Nat
  execution_time : Rat
  test_details : List TestDetail
deriving DecidableEq, Repr

/-- Python attribute read on a `TestResults` instance for the numeric
attribute names `_calculate_improvement` mentions; `none` models the
`AttributeError` raised for any name that is not a field of the dataclass
(such as `passed_results`). -/
def TestResults.attr (t : TestResults) : String → Option Rat
  | "total_tests" => some t.total_tests
  | "passed_tests" => some t.passed_tests
  | "failed_tests" => some t.failed_tests
  | "error_tests" => some t.error_tests
  | "execution_time" => some t.execution_time
  | _ => none

/-- Embedding of `TestRunner.run_tests` (`src/src/agents/test_driven_repair_agent.py`
lines 370-409): run each case, count statuses; the wall-clock execution time
is external and modelled as 0. -/
def runTests (parseOk : Bool) (tests : List TestCase) : TestResults :=
  let details := tests.map (runSingleTest parseOk)
  { total_tests := tests.length
    passed_tests := (details.filter (fun d => d.status = "passed")).length
    failed_tests := (details.filter (fun d => d.status = "failed")).length
    error_tests := (details.filter (fun d => d.status = "error")).length
    execution_time := 0
    test_details := details }

/-- Python float division; `none` models a `ZeroDivisionError`. -/
def pyDiv (a b : Rat) : Option Rat :=
  if b = 0 then none else some (a / b)

/-- The improvement-metrics record `_calculate_improvement` would build. -/
structure Improvement where
  failed_tests_reduction : Rat
  passed_tests_increase : Rat
  success_rate_improvement : Rat
deriving DecidableEq, Repr

/-- Embedding of `TestDrivenRepairAgent._calculate_improvement`
(`src/src/agents/test_driven_repair_agent.py` lines 191-202), with the dict
entries evaluated in source order and every attribute read explicit: the
second entry reads `initial_results.passed_results`, a name that is not a
field of `TestResults` (the field is `passed_tests`), so the read raises
`AttributeError`. -/
def calcImprovement (initial_results final_results : TestResults) : Option Improvement := do
  let iFailed ← initial_results.attr "failed_tests"
  let fFailed ← final_results.attr "failed_tests"
  let failedReduction := iFailed - fFailed
  let fPassed ← final_results.attr "passed_tests"
  let iPassedResults ← initial_results.attr "passed_results"
  let passedIncrease := fPassed - iPassedResults
  let iTotal ← initial_results.attr "total_tests"
  let successRateImprovement ←
    if 0 < iTotal then do
      let fp ← final_results.attr "passed_tests"
      let ft ← final_results.attr "total_tests"
      let q₁ ← pyDiv fp ft
      let ip ← initial_results.attr "passed_tests"
      let q₂ ← pyDiv ip iTotal
      pure (q₁ - q₂)
    else pure 0
  pure { failed_tests_reduction := failedReduction
         passed_tests_increase := passedIncrease
         success_rate_improvement := successRateImprovement }

/-- Embedding of `TestDrivenRepairAgent._identify_issues_from_tests`
(`src/src/agents/test_driven_repair_agent.py` lines 137-155): one generic
logic issue per failed test detail.  The failed details produced by the
runner carry no `error` entry, so `test_detail.get('error', 'Unknown error')`
yields the default. -/
def identifyIssuesFromTests (test_results : TestResults) : List Issue :=
  (test_results.test_details.filter (fun d => d.status = "failed")).map fun _ =>
    { baseIssue with
        file_path := some "generated"
        line_number := 0
        issue_type := .logic
        severity := .high
        description := "Test failed: Unknown error"
        suggestion := "Review and fix the failing test case"
        confidence := mkRat 7 10 }

/-- The result map `TestDrivenRepairAgent.analyze_and_repair` builds when it
reaches the reporting step (`src/src/agents/test_driven_repair_agent.py`
lines 86-102), restricted to the entries downstream code reads. -/
structure RepairReport where
  original_code : String
  repaired_code : String
  generated_tests : List TestCase
  initial_test_results : TestResults
  final_test_results : TestResults
  applied_repairs : List RepairResult
  repair_success : Bool
  improvement_metrics : Improvement
  confidence : Rat
  repairs_attempted : Nat
  repairs_successful : Nat
deriving DecidableEq, Repr

/-- Embedding of `TestDrivenRepairAgent.analyze_and_repair`
(`src/src/agents/test_driven_repair_agent.py` lines 45-123): generate tests,
run them, derive issues from failures when none were supplied (a `None`
issues argument that stays `None` makes the repair loop raise `TypeError`),
run the repair loop, re-run the tests, and build the result map.  `none`
models the error map `handle_error` returns after any exception — that map
carries no `improvement_metrics` entry. -/
def tdraAnalyzeAndRepair (pyParse : String → Option (List PyNode)) (code : String)
    (issues : Option (List Issue)) : Option RepairReport := do
  let test_cases := generateTests (pyParse code) code
  let test_results := runTests (pyParse code).isSome test_cases
  let issuesAfter : Option (List Issue) :=
    match issues with
    | none =>
        if 0 < test_results.failed_tests then some (identifyIssuesFromTests test_results)
        else none
    | some l =>
        if l.isEmpty ∧ 0 < test_results.failed_tests then
          some (identifyIssuesFromTests test_results)
        else some l
  let issueList ← issuesAfter
  let loopOut := repairLoop code issueList
  let final_test_results := runTests (pyParse loopOut.1).isSome test_cases
  let improvement ← calcImprovement test_results final_test_results
  pure { original_code := code
         repaired_code := loopOut.1
         generated_tests := test_cases
         initial_test_results := test_results
         final_test_results := final_test_results
         applied_repairs := loopOut.2
         repair_success := decide (0 < loopOut.2.length) &&
           decide (final_test_results.failed_tests < test_results.failed_tests)
         improvement_metrics := improvement
         confidence := calcRepairConfidence loopOut.2
         repairs_attempted := issueList.length
         repairs_successful := loopOut.2.length }

/-- C1 (as a code-bug record): `TestResults` has no `passed_results`
attribute, so `_calculate_improvement` always raises `AttributeError`, and
every call of `analyze_and_repair` that reaches the reporting step returns
the `handle_error` error map — which carries no `improvement_metrics` entry —
instead of the claimed metrics. -/
theorem improvement_metrics_attribute_error :
    (∀ t : TestResults, t.attr "passed_results" = none) ∧
    (∀ initial_results final_results : TestResults,
      calcImprovement initial_results final_results = none) ∧
    (∀ (pyParse : String → Option (List PyNode)) (code : String)
      (issues : Option (List Issue)),
      tdraAnalyzeAndRepair pyParse code issues = none) := by
  have hattr : ∀ t : TestResults, t.attr "passed_results" = none := fun t => rfl
  have himp : ∀ i f : TestResults, calcImprovement i f = none := by
    intro i f
    simp [calcImprovement, TestResults.attr]
  refine ⟨hattr, himp, ?_⟩
  intro pyParse code issues
  simp only [tdraAnalyzeAndRepair, himp]
  cases issues <;> simp [Option.bind] <;> split <;> simp [himp]

/-- Result record of `CoordinatorAgent._execute_hybrid_workflow`
(`src/src/agents/coordinator_agent.py` lines 279-328), restricted to the
entries the claims talk about.  `repair_results = none` means the repair
agent was not invoked (the Python entry is `None`); `some none` means it was
invoked and returned its error map (from which `.get` falls back to the
defaults); `static_final = none` means no second static pass ran. -/
structure HybridResult where
  final_code : String
  repair_results : Option (Option RepairReport)
  static_initial : StaticResults
  static_final : Option StaticResults
  total_issues : Nat
  overall_success : Bool
  applied_repairs : List RepairResult
deriving Repr

/-- Embedding of `CoordinatorAgent._execute_hybrid_workflow`: static analysis first; if
any issues were found, hand them to the repair agent and take `final_code`
from its `repaired_code` entry (falling back to the input code on the error
map); re-run static analysis only when the code changed. -/
def hybridWorkflow (pyParse : String → Option (List PyNode)) (fp : Option String)
    (code : String) : HybridResult :=
  let static_result := staticAnalyze fp code
  let all_issues := static_result.security_issues ++ static_result.quality_issues ++
    static_result.performance_issues
  let repairCall : Option (Option RepairReport) :=
    if all_issues.isEmpty then none
    else some (tdraAnalyzeAndRepair pyParse code (some all_issues))
  let final_code :=
    match repairCall with
    | some (some r) => r.repaired_code
    | some none => code
    | none => code
  let final_static := if final_code ≠ code then some (staticAnalyze fp final_code) else none
  { final_code := final_code
    repair_results := repairCall
    static_initial := static_result
    static_final := final_static
    total_issues := all_issues.length
    overall_success := decide (¬ all_issues.isEmpty) &&
      (match repairCall with
        | some (some r) => r.repair_success
        | some none => false
        | none => true)
    applied_repairs :=
      match repairCall with
      | some (some r) => r.applied_repairs
      | _ => [] }

/-- C6: when the static pass finds zero security, quality, and performance
issues, the hybrid workflow leaves `final_code` equal to the input code,
never invokes the repair agent, and performs no second static-analysis
pass. -/
theorem hybrid_clean_code_noop (pyParse : String → Option (List PyNode))
    (fp : Option String) (code : String)
    (hs : (staticAnalyze fp code).security_issues = [])
    (hq : (staticAnalyze fp code).quality_issues = [])
    (hp : (staticAnalyze fp code).performance_issues = []) :
    (hybridWorkflow pyParse fp code).final_code = code ∧
    (hybridWorkflow pyParse fp code).repair_results = none ∧
    (hybridWorkflow pyParse fp code).static_final = none := by
  simp [hybridWorkflow, hs, hq, hp]

/-- Witness for C6 at the concrete clean input `x = 1` (with a fixed parse
function standing in for `ast.parse`). -/
theorem hybrid_clean_code_noop_witness :
    (hybridWorkflow (fun _ => some []) none "x = 1").final_code = "x = 1" ∧
    (hybridWorkflow (fun _ => some []) none "x = 1").repair_results = none ∧
    (hybridWorkflow (fun _ => some []) none "x = 1").static_final = none :=
  hybrid_clean_code_noop (fun _ => some []) none "x = 1" (by decide) (by decide) (by decide)

/-- One generated function test per function-definition node. -/
theorem genWalk_funcDefs_length (names : List String) :
    ∀ counter : Nat,
      (genWalk counter (names.map (fun n => PyNode.funcDef n []))).length = names.length := by
  induction names with
  | nil => intro counter; rfl
  | cons n t ih => intro counter; simp [genWalk, ih]

/-- C7: for any parse result whose walk generates at least the cap of 50 test
cases — in particular any code with 80 function declarations —
`generate_tests` returns exactly the first 50 generated cases in order
(`max_test_cases` from `TEST_CONFIG`), silently dropping the rest and never
returning more than the cap. -/
theorem generate_tests_cap (nodes : List PyNode) (code : String)
    (h : 50 ≤ (genWalk 0 nodes).length) :
    generateTests (some nodes) code = (genWalk 0 nodes).take 50 ∧
    (generateTests (some nodes) code).length = 50 := by
  constructor
  · rfl
  · simp only [generateTests, testConfigGet, TEST_CONFIG]
    simp [List.length_take]
    omega

/-- The 80 function names of the C7 witness. -/
def c7Names : List String :=
  (List.range 80).map (fun i => "f" ++ toString i)

/-- The 80 function-definition nodes of the C7 witness. -/
def c7Nodes : List PyNode :=
  c7Names.map (fun n => PyNode.funcDef n [])

/-- Witness for C7: on 80 function declarations exactly 50 test cases are
returned, the earliest in order. -/
theorem generate_tests_cap_witness :
    generateTests (some c7Nodes) "" = (genWalk 0 c7Nodes).take 50 ∧
    (generateTests (some c7Nodes) "").length = 50 :=
  generate_tests_cap c7Nodes ""
    (by rw [c7Nodes, genWalk_funcDefs_length]; rw [c7Names]; simp)

/-- JSON values as `json.dump` / `json.load` exchange them through
`config.json`. -/
inductive JVal
  | jstr (s : String)
  | jint (n : Int)
  | jnum (q : Rat)
  | jbool (b : Bool)
  | jnull
  | jarr (items : List JVal)

/-- Decode a JSON string. -/
def JVal.asStr : JVal → Option String
  | .jstr s => some s
  | _ => none

/-- Decode a JSON integer. -/
def JVal.asInt : JVal → Option Int
  | .jint n => some n
  | _ => none

/-- Decode a JSON number. -/
def JVal.asRat : JVal → Option Rat
  | .jnum q => some q
  | _ => none

/-- Decode a JSON boolean. -/
def JVal.asBool : JVal → Option Bool
  | .jbool b => some b
  | _ => none

/-- Decode an optional JSON string (`null` ↦ `none`). -/
def JVal.asOptStr : JVal → Option (Option String)
  | .jstr s => some (some s)
  | .jnull => some none
  | _ => none

/-- Decode a list of JSON strings elementwise. -/
def decodeStrList : List JVal → Option (List String)
  | [] => some []
  | v :: rest => do
      let s ← v.asStr
      let t ← decodeStrList rest
      pure (s :: t)

/-- Decode a JSON array of strings. -/
def JVal.asStrList : JVal → Option (List String)
  | .jarr items => decodeStrList items
  | _ => none

/-- The authoritative `AgentConfig` dataclass of `src/src/core/config.py`
lines 23-83, every field included.  Python floats are rationals. -/
structure AgentConfig where
  name : String
  version : String
  enabled : Bool
  log_level : String
  timeout : Int
  max_memory : Int
  max_cpu_usage : Rat
  max_file_size : Int
  supported_languages : List String
  working_directory : String
  enable_security_analysis : Bool
  enable_quality_analysis : Bool
  enable_performance_analysis : Bool
  enable_complexity_analysis : Bool
  enable_auto_repair : Bool
  repair_confidence_threshold : Rat
  max_repair_attempts : Int
  enable_test_generation : Bool
  test_framework : String
  test_timeout : Int
  max_test_cases : Int
  ai_provider : String
  ai_model : String
  ai_api_key : Option String
  ai_temperature : Rat
  ai_max_tokens : Int
  output_format : String
  output_directory : String
  create_report : Bool
  verbose_output : Bool
deriving DecidableEq, Repr

/-- The valid log levels of `AgentConfig.__post_init__`. -/
def validLogLevels : List String :=
  ["DEBUG", "INFO", "WARNING", "ERROR", "CRITICAL"]

/-- Embedding of `AgentConfig.__post_init__` (`src/src/core/config.py` lines 67-83),
applied to every constructed instance: an empty working directory becomes the
process working directory `cwd` (`os.getcwd()`, an external value passed as a
parameter), an invalid log level falls back to `INFO`, a nonpositive timeout
falls back to 300, and an out-of-range repair-confidence threshold falls back
to 0.7.  Each normalization is its own definition; `normWd` is the
working-directory one. -/
def normWd (cwd w : String) : String :=
  if w = "" then cwd else w

/-- Log-level normalization of `__post_init__`. -/
def normLogLevel (s : String) : String :=
  if validLogLevels.contains s then s else "INFO"

/-- Timeout normalization of `__post_init__`. -/
def normTimeout (t : Int) : Int :=
  if t ≤ 0 then 300 else t

/-- Repair-confidence-threshold normalization of `__post_init__`. -/
def normThreshold (q : Rat) : Rat :=
  if 0 ≤ q ∧ q ≤ 1 then q else mkRat 7 10

/-- Combined `__post_init__`. -/
def postInit (cwd : String) (c : AgentConfig) : AgentConfig :=
  { c with
      working_directory := normWd cwd c.working_directory
      log_level := normLogLevel c.log_level
      timeout := normTimeout c.timeout
      repair_confidence_threshold := normThreshold c.repair_confidence_threshold }

/-- Embedding of `ConfigManager.save_config` (`src/src/core/config.py` lines 205-216):
`json.dump(config.__dict__, f)` writes one JSON object whose keys are exactly
the field names, in dataclass declaration order. -/
def saveConfig (c : AgentConfig) : List (String × JVal) :=
  [("name", .jstr c.name),
   ("version", .jstr c.version),
   ("enabled", .jbool c.enabled),
   ("log_level", .jstr c.log_level),
   ("timeout", .jint c.timeout),
   ("max_memory", .jint c.max_memory),
   ("max_cpu_usage", .jnum c.max_cpu_usage),
   ("max_file_size", .jint c.max_file_size),
   ("supported_languages", .jarr (c.supported_languages.map .jstr)),
   ("working_directory", .jstr c.working_directory),
   ("enable_security_analysis", .jbool c.enable_security_analysis),
   ("enable_quality_analysis", .jbool c.enable_quality_analysis),
   ("enable_performance_analysis", .jbool c.enable_performance_analysis),
   ("enable_complexity_analysis", .jbool c.enable_complexity_analysis),
   ("enable_auto_repair", .jbool c.enable_auto_repair),
   ("repair_confidence_threshold", .jnum c.repair_confidence_threshold),
   ("max_repair_attempts", .jint c.max_repair_attempts),
   ("enable_test_generation", .jbool c.enable_test_generation),
   ("test_framework", .jstr c.test_framework),
   ("test_timeout", .jint c.test_timeout),
   ("max_test_cases", .jint c.max_test_cases),
   ("ai_provider", .jstr c.ai_provider),
   ("ai_model", .jstr c.ai_model),
   ("ai_api_key", match c.ai_api_key with | some k => .jstr k | none => .jnull),
   ("ai_temperature", .jnum c.ai_temperature),
   ("ai_max_tokens", .jint c.ai_max_tokens),
   ("output_format", .jstr c.output_format),
   ("output_directory", .jstr c.output_directory),
   ("create_report", .jbool c.create_report),
   ("verbose_output", .jbool c.verbose_output)]

/-- Read one field from the JSON object: a missing key falls back to the
dataclass default (keyword argument omitted), a present value must decode. -/
def loadField {α : Type} (file : List (String × JVal)) (k : String)
    (dec : JVal → Option α) (dflt : α) : Option α :=
  match file.lookup k with
  | none => some dflt
  | some v => dec v

/-- Decoded field group of the JSON object: identity and resource fields of
`AgentConfig` (`src/src/core/config.py` lines 26-35). -/
structure CfgCore where
  name : String
  version : String
  enabled : Bool
  log_level : String
  timeout : Int
  max_memory : Int
  max_cpu_usage : Rat
  max_file_size : Int
  supported_languages : List String
  working_directory : String

/-- Decoded field group: the analysis toggles. -/
structure CfgAnalysis where
  enable_security_analysis : Bool
  enable_quality_analysis : Bool
  enable_performance_analysis : Bool
  enable_complexity_analysis : Bool

/-- Decoded field group: the repair tuning fields. -/
structure CfgRepair where
  enable_auto_repair : Bool
  repair_confidence_threshold : Rat
  max_repair_attempts : Int

/-- Decoded field group: the test tuning fields. -/
structure CfgTest where
  enable_test_generation : Bool
  test_framework : String
  test_timeout : Int
  max_test_cases : Int

/-- Decoded field group: the AI provider fields. -/
structure CfgAI where
  ai_provider : String
  ai_model : String
  ai_api_key : Option String
  ai_temperature : Rat
  ai_max_tokens : Int

/-- Decoded field group: the output fields. -/
structure CfgOutput where
  output_format : String
  output_directory : String
  create_report : Bool
  verbose_output : Bool

/-- Read the identity and resource fields.  `name` is the only field of the
dataclass without a default, so a missing or non-string `name` fails the
construction (`TypeError`); every other field falls back to its dataclass
default when absent (`working_directory`'s default factory is `os.getcwd()`,
the `cwd` parameter). -/
def loadCore (cwd : String) (file : List (String × JVal)) : Option CfgCore := do
  let vname ← file.lookup "name"
  let name ← vname.asStr
  let version ← loadField file "version" JVal.asStr "1.0.0"
  let enabled ← loadField file "enabled" JVal.asBool true
  let log_level ← loadField file "log_level" JVal.asStr "INFO"
  let timeout ← loadField file "timeout" JVal.asInt 300
  let max_memory ← loadField file "max_memory" JVal.asInt 1073741824
  let max_cpu_usage ← loadField file "max_cpu_usage" JVal.asRat (mkRat 8 10)
  let max_file_size ← loadField file "max_file_size" JVal.asInt 10485760
  let supported_languages ← loadField file "supported_languages" JVal.asStrList
    ["python", "javascript", "java"]
  let working_directory ← loadField file "working_directory" JVal.asStr cwd
  pure ⟨name, version, enabled, log_level, timeout, max_memory, max_cpu_usage,
    max_file_size, supported_languages, working_directory⟩

/-- Read the analysis toggles. -/
def loadAnalysis (file : List (String × JVal)) : Option CfgAnalysis := do
  let enable_security_analysis ← loadField file "enable_security_analysis" JVal.asBool true
  let enable_quality_analysis ← loadField file "enable_quality_analysis" JVal.asBool true
  let enable_performance_analysis ← loadField file "enable_performance_analysis" JVal.asBool true
  let enable_complexity_analysis ← loadField file "enable_complexity_analysis" JVal.asBool true
  pure ⟨enable_security_analysis, enable_quality_analysis, enable_performance_analysis,
    enable_complexity_analysis⟩

/-- Read the repair tuning fields. -/
def loadRepair (file : List (String × JVal)) : Option CfgRepair := do
  let enable_auto_repair ← loadField file "enable_auto_repair" JVal.asBool false
  let repair_confidence_threshold ← loadField file "repair_confidence_threshold" JVal.asRat
    (mkRat 7 10)
  let max_repair_attempts ← loadField file "max_repair_attempts" JVal.asInt 3
  pure ⟨enable_auto_repair, repair_confidence_threshold, max_repair_attempts⟩

/-- Read the test tuning fields. -/
def loadTestCfg (file : List (String × JVal)) : Option CfgTest := do
  let enable_test_generation ← loadField file "enable_test_generation" JVal.asBool true
  let test_framework ← loadField file "test_framework" JVal.asStr "pytest"
  let test_timeout ← loadField file "test_timeout" JVal.asInt 60
  let max_test_cases ← loadField file "max_test_cases" JVal.asInt 100
  pure ⟨enable_test_generation, test_framework, test_timeout, max_test_cases⟩

/-- Read the AI provider fields. -/
def loadAI (file : List (String × JVal)) : Option CfgAI := do
  let ai_provider ← loadField file "ai_provider" JVal.asStr "openai"
  let ai_model ← loadField file "ai_model" JVal.asStr "gpt-3.5-turbo"
  let ai_api_key ← loadField file "ai_api_key" JVal.asOptStr none
  let ai_temperature ← loadField file "ai_temperature" JVal.asRat (mkRat 7 10)
  let ai_max_tokens ← loadField file "ai_max_tokens" JVal.asInt 2000
  pure ⟨ai_provider, ai_model, ai_api_key, ai_temperature, ai_max_tokens⟩

/-- Read the output fields. -/
def loadOutput (file : List (String × JVal)) : Option CfgOutput := do
  let output_format ← loadField file "output_format" JVal.asStr "json"
  let output_directory ← loadField file "output_directory" JVal.asStr "output"
  let create_report ← loadField file "create_report" JVal.asBool true
  let verbose_output ← loadField file "verbose_output" JVal.asBool false
  pure ⟨output_format, output_directory, create_report, verbose_output⟩

/-- Embedding of `ConfigManager.load_config` on an existing configuration file
(`src/src/core/config.py` lines 178-203, cache empty):
`AgentConfig(**config_data)` constructs the instance from the JSON object —
`name` is the only field without a default — and `__post_init__` runs on the
result.  `none` models a constructor `TypeError` (missing `name`) or a field
of the wrong shape, which the source catches by falling back to the default
configuration.  The field reads are staged through the six groups above
(identity/resources, analysis, repair, test, AI, output — the grouping of the
dataclass's own comment sections). -/
def loadConfig (cwd : String) (file : List (String × JVal)) : Option AgentConfig := do
  let core ← loadCore cwd file
  let ana ← loadAnalysis file
  let rep ← loadRepair file
  let tst ← loadTestCfg file
  let ai ← loadAI file
  let outp ← loadOutput file
  pure (postInit cwd
    { name := core.name
      version := core.version
      enabled := core.enabled
      log_level := core.log_level
      timeout := core.timeout
      max_memory := core.max_memory
      max_cpu_usage := core.max_cpu_usage
      max_file_size := core.max_file_size
      supported_languages := core.supported_languages
      working_directory := core.working_directory
      enable_security_analysis := ana.enable_security_analysis
      enable_quality_analysis := ana.enable_quality_analysis
      enable_performance_analysis := ana.enable_performance_analysis
      enable_complexity_analysis := ana.enable_complexity_analysis
      enable_auto_repair := rep.enable_auto_repair
      repair_confidence_threshold := rep.repair_confidence_threshold
      max_repair_attempts := rep.max_repair_attempts
      enable_test_generation := tst.enable_test_generation
      test_framework := tst.test_framework
      test_timeout := tst.test_timeout
      max_test_cases := tst.max_test_cases
      ai_provider := ai.ai_provider
      ai_model := ai.ai_model
      ai_api_key := ai.ai_api_key
      ai_temperature := ai.ai_temperature
      ai_max_tokens := ai.ai_max_tokens
      output_format := outp.output_format
      output_directory := outp.output_directory
      create_report := outp.create_report
      verbose_output := outp.verbose_output })

/-- Encoding then decoding a string list is the identity. -/
theorem asStrList_map_jstr (l : List String) :
    JVal.asStrList (.jarr (l.map .jstr)) = some l := by
  induction l with
  | nil => rfl
  | cons a t ih =>
      simp only [JVal.asStrList, List.map_cons, decodeStrList, JVal.asStr] at ih ⊢
      simp [ih]

/-- Reading back the identity and resource fields of a saved configuration. -/
theorem loadCore_saveConfig (cwd : String) (c : AgentConfig) :
    loadCore cwd (saveConfig c) =
      some ⟨c.name, c.version, c.enabled, c.log_level, c.timeout, c.max_memory,
        c.max_cpu_usage, c.max_file_size, c.supported_languages, c.working_directory⟩ := by
  simp [loadCore, saveConfig, loadField, List.lookup, JVal.asStr, JVal.asBool,
    JVal.asInt, JVal.asRat, asStrList_map_jstr]

/-- Reading back the analysis toggles of a saved configuration. -/
theorem loadAnalysis_saveConfig (c : AgentConfig) :
    loadAnalysis (saveConfig c) =
      some ⟨c.enable_security_analysis, c.enable_quality_analysis,
        c.enable_performance_analysis, c.enable_complexity_analysis⟩ := by
  simp [loadAnalysis, saveConfig, loadField, List.lookup, JVal.asBool]

/-- Reading back the repair tuning fields of a saved configuration. -/
theorem loadRepair_saveConfig (c : AgentConfig) :
    loadRepair (saveConfig c) =
      some ⟨c.enable_auto_repair, c.repair_confidence_threshold, c.max_repair_attempts⟩ := by
  simp [loadRepair, saveConfig, loadField, List.lookup, JVal.asBool, JVal.asRat, JVal.asInt]

/-- Reading back the test tuning fields of a saved configuration. -/
theorem loadTestCfg_saveConfig (c : AgentConfig) :
    loadTestCfg (saveConfig c) =
      some ⟨c.enable_test_generation, c.test_framework, c.test_timeout, c.max_test_cases⟩ := by
  simp [loadTestCfg, saveConfig, loadField, List.lookup, JVal.asBool, JVal.asStr, JVal.asInt]

/-- Reading back the AI provider fields of a saved configuration. -/
theorem loadAI_saveConfig (c : AgentConfig) :
    loadAI (saveConfig c) =
      some ⟨c.ai_provider, c.ai_model, c.ai_api_key, c.ai_temperature, c.ai_max_tokens⟩ := by
  cases hk : c.ai_api_key with
  | none =>
      simp [loadAI, saveConfig, loadField, List.lookup, JVal.asStr, JVal.asRat,
        JVal.asInt, JVal.asOptStr, hk]
  | some k =>
      simp [loadAI, saveConfig, loadField, List.lookup, JVal.asStr, JVal.asRat,
        JVal.asInt, JVal.asOptStr, hk]

/-- Reading back the output fields of a saved configuration. -/
theorem loadOutput_saveConfig (c : AgentConfig) :
    loadOutput (saveConfig c) =
      some ⟨c.output_format, c.output_directory, c.create_report, c.verbose_output⟩ := by
  simp [loadOutput, saveConfig, loadField, List.lookup, JVal.asStr, JVal.asBool]

/-- Loading a saved configuration reconstructs it up to `__post_init__`. -/
theorem loadConfig_saveConfig (cwd : String) (c : AgentConfig) :
    loadConfig cwd (saveConfig c) = some (postInit cwd c) := by
  simp only [loadConfig, loadCore_saveConfig, loadAnalysis_saveConfig, loadRepair_saveConfig,
    loadTestCfg_saveConfig, loadAI_saveConfig, loadOutput_saveConfig, Option.bind_some,
    Option.pure_def, Option.bind_eq_bind]
  rfl

/-- Idempotence of the working-directory normalization. -/
theorem normWd_idem (cwd w : String) : normWd cwd (normWd cwd w) = normWd cwd w := by
  by_cases h : w = "" <;> simp [normWd, h]

/-- Idempotence of the log-level normalization. -/
theorem normLogLevel_idem (s : String) : normLogLevel (normLogLevel s) = normLogLevel s := by
  by_cases h : validLogLevels.contains s
  · have h1 : normLogLevel s = s := if_pos h
    rw [h1]
    exact h1
  · have h1 : normLogLevel s = "INFO" := if_neg h
    rw [h1]
    decide

/-- Idempotence of the timeout normalization. -/
theorem normTimeout_idem (t : Int) : normTimeout (normTimeout t) = normTimeout t := by
  by_cases h : t ≤ 0 <;> simp [normTimeout, h]

/-- Idempotence of the threshold normalization. -/
theorem normThreshold_idem (q : Rat) : normThreshold (normThreshold q) = normThreshold q := by
  by_cases h : 0 ≤ q ∧ q ≤ 1 <;> simp [normThreshold, h]

/-- Idempotence of `__post_init__`: every normalization maps its own output
to itself. -/
theorem postInit_idem (cwd : String) (c : AgentConfig) :
    postInit cwd (postInit cwd c) = postInit cwd c := by
  simp [postInit, normWd_idem, normLogLevel_idem, normTimeout_idem, normThreshold_idem]

/-- C8: saving an `AgentConfig` and, with the cache cleared, loading it back
through the JSON configuration file returns an instance field-for-field equal
to the saved one.  Every live instance has been through `__post_init__`, so
the instance is quantified as `postInit cwd raw` for arbitrary raw field
values and working directory. -/
theorem config_save_load_roundtrip (cwd : String) (raw : AgentConfig) :
    loadConfig cwd (saveConfig (postInit cwd raw)) = some (postInit cwd raw) := by
  rw [loadConfig_saveConfig, postInit_idem]
